import Mathlib

/-!
Verification development for the blockchain-indexing API query routes
(`src/api/routes/tx.ts` and `src/api/routes/burnchain.ts`) and the
chain-state store interface they consume.

The route handlers are embedded directly from the TypeScript sources.
The data-store operations (`getTxList`, `getMempoolTxList`, `getDroppedTxs`,
`getTxFromDataStore`, `getBurnchainRewards`, `getBurnchainRewardsTotal`,
`appendBlock`), the pagination helpers (`parseLimitQuery`,
`parsePagingQueryInput`) and the address helpers are imported by the routes
from modules that are not part of the sources; those are modelled from the
specification, as marked in their doc comments.  Address validation and
C32-to-Bitcoin conversion are external collaborators and are treated as
abstract predicates bundled in `AddressHelpers`.
-/

/-- Minimal JSON value model: route handlers respond with `res.json(...)`,
so responses are embedded as JSON objects whose key lists mirror the
object literals in the TypeScript sources. -/
inductive Json where
  | str (s : String)
  | num (n : Nat)
  | bool (b : Bool)
  | null
  | arr (elems : List Json)
  | obj (fields : List (String × Json))

/-- Field lookup on a JSON object; `none` on a missing key or a non-object. -/
def Json.getField : Json → String → Option Json
  | Json.obj fields, key => List.lookup key fields
  | _, _ => none

/-- Body of an error response: the routes respond with
`res.status(code).json({ error: msg })`. -/
def errJson (msg : String) : Json :=
  Json.obj [("error", Json.str msg)]

/-- Outcome of a route handler: a JSON response with an HTTP status code
(`res.status(s).json(body)` / `res.json(body)` with status 200), or a
redirect (`res.redirect(location)`). -/
inductive RouteResponse where
  | json (status : Nat) (body : Json)
  | redirect (location : String)

/-- Stored block row (spec section 3 data model). -/
structure DbBlock where
  block_hash : String
  index_block_hash : String
  parent_index_block_hash : String
  parent_block_hash : String
  block_height : Nat
  canonical : Bool
  deriving Repr, DecidableEq

/-- Stored transaction row. -/
structure DbTx where
  tx_id : String
  index_block_hash : String
  tx_type : String
  status : Nat
  sender_address : String
  fee_rate : Nat
  canonical : Bool
  deriving Repr, DecidableEq

/-- Stored per-transaction STX event row. -/
structure DbStxEvent where
  tx_id : String
  event_index : Nat
  index_block_hash : String
  sender : String
  recipient : String
  amount : Nat
  canonical : Bool
  deriving Repr, DecidableEq

/-- Stored mempool transaction row. -/
structure DbMempoolTx where
  tx_id : String
  sender_address : String
  recipient_address : Option String
  receipt_time : Nat
  pruned : Bool
  dropped : Bool
  drop_reason : Option String
  deriving Repr, DecidableEq

/-- Stored burnchain reward row. -/
structure DbBurnchainReward where
  canonical : Bool
  burn_block_hash : String
  burn_block_height : Nat
  burn_amount : Nat
  reward_recipient : String
  reward_amount : Nat
  reward_index : Nat
  deriving Repr, DecidableEq

/-- The chain state store (spec section 4.2): one explicit store handle
threaded through ingestion and query calls. -/
structure DataStore where
  blocks : List DbBlock
  txs : List DbTx
  stxEvents : List DbStxEvent
  mempoolTxs : List DbMempoolTx
  burnchainRewards : List DbBurnchainReward
  deriving Repr, DecidableEq

/-- Address-format helpers imported by the routes from `../../helpers`
(external collaborators, spec section 1 out-of-scope list); kept abstract. -/
structure AddressHelpers where
  isValidC32Address : String → Bool
  isValidBitcoinAddress : String → Bool
  tryConvertC32ToBtc : String → Option String

/-- Modelled from the spec: pagination helper `parseLimitQuery` from
`../pagination` (not in the sources).  Spec section 6: each endpoint declares
its own maximum `limit` and rejects values above it with a client error. -/
def parseLimitQuery (maxItems : Nat) (errorMsg : String) (limitInput : Nat) : Except String Nat :=
  if limitInput > maxItems then Except.error errorMsg else Except.ok limitInput

/-- Modelled from the spec: pagination helper `parsePagingQueryInput` from
`../pagination` (not in the sources).  Spec section 6: `offset` values are
non-negative integers; the routes supply 0 when the parameter is omitted. -/
def parsePagingQueryInput (n : Nat) : Nat := n

/-- Maximum transaction list page size (tx.ts line 19). -/
def MAX_TXS_PER_REQUEST : Nat := 200

/-- Limit parser for the transaction list routes (tx.ts lines 20-23). -/
def parseTxQueryLimit : Nat → Except String Nat :=
  parseLimitQuery MAX_TXS_PER_REQUEST
    ("`limit` must be equal to or less than " ++ toString MAX_TXS_PER_REQUEST)

/-- Maximum mempool list page size (tx.ts line 25). -/
def MAX_MEMPOOL_TXS_PER_REQUEST : Nat := 200

/-- Limit parser for the mempool list route (tx.ts lines 26-29). -/
def parseMempoolTxQueryLimit : Nat → Except String Nat :=
  parseLimitQuery MAX_MEMPOOL_TXS_PER_REQUEST
    ("`limit` must be equal to or less than " ++ toString MAX_MEMPOOL_TXS_PER_REQUEST)

/-- Maximum per-transaction event page size (tx.ts line 31). -/
def MAX_EVENTS_PER_REQUEST : Nat := 200

/-- Limit parser for the per-transaction event sublist (tx.ts lines 32-35). -/
def parseTxQueryEventsLimit : Nat → Except String Nat :=
  parseLimitQuery MAX_EVENTS_PER_REQUEST
    ("`event_limit` must be equal to or less than " ++ toString MAX_EVENTS_PER_REQUEST)

/-- Maximum burnchain reward list page size (burnchain.ts line 13). -/
def MAX_BLOCKS_PER_REQUEST : Nat := 30

/-- Limit parser for the burnchain reward routes (burnchain.ts lines 15-18). -/
def parseBlockQueryLimit : Nat → Except String Nat :=
  parseLimitQuery MAX_BLOCKS_PER_REQUEST
    ("`limit` must be equal to or less than " ++ toString MAX_BLOCKS_PER_REQUEST)

/-- Result shape of the paginated data-store list operations. -/
structure ListResult (α : Type) where
  total : Nat
  results : List α
  deriving Repr

/-- Filter predicate of the mempool list query: optional sender filter,
optional recipient filter, optional either-address filter. -/
def mempoolTxMatches (senderAddress recipientAddress address : Option String)
    (tx : DbMempoolTx) : Bool :=
  (match senderAddress with
   | none => true
   | some s => tx.sender_address == s) &&
  (match recipientAddress with
   | none => true
   | some r => tx.recipient_address == some r) &&
  (match address with
   | none => true
   | some a => tx.sender_address == a || tx.recipient_address == some a)

/-- Modelled from the spec: data-store operation `getMempoolTxList` (the
datastore module is not in the sources).  Spec section 6: returns the
pending mempool transactions matching the optional address filters, with
`total` the count of all matching rows independent of the page window. -/
def getMempoolTxList (db : DataStore) (offset limit : Nat)
    (senderAddress recipientAddress address : Option String) : ListResult DbMempoolTx :=
  let rows := db.mempoolTxs.filter
    (fun tx => !tx.pruned && !tx.dropped &&
      mempoolTxMatches senderAddress recipientAddress address tx)
  { total := rows.length, results := (rows.drop offset).take limit }

/-- Transaction list filter: canonical rows, optional type filter
(an empty filter list selects every type). -/
def txListMatches (txTypeFilter : List String) (tx : DbTx) : Bool :=
  tx.canonical && (txTypeFilter.isEmpty || txTypeFilter.contains tx.tx_type)

/-- Modelled from the spec: data-store operation `getTxList` (the datastore
module is not in the sources).  Spec section 6: paginated canonical
transactions with optional type filter; `total` counts all matching rows. -/
def getTxList (db : DataStore) (offset limit : Nat)
    (txTypeFilter : List String) : ListResult DbTx :=
  let rows := db.txs.filter (txListMatches txTypeFilter)
  { total := rows.length, results := (rows.drop offset).take limit }

/-- Modelled from the spec: data-store operation `getDroppedTxs` (the
datastore module is not in the sources).  Spec section 6: paginated list of
dropped mempool transactions; `total` counts all matching rows. -/
def getDroppedTxs (db : DataStore) (offset limit : Nat) : ListResult DbMempoolTx :=
  let rows := db.mempoolTxs.filter (fun m => m.dropped)
  { total := rows.length, results := (rows.drop offset).take limit }

/-- Result of a single-transaction fetch: the row plus its paginated
event sublist. -/
structure TxQueryResult where
  tx : DbTx
  events : List DbStxEvent
  deriving Repr, DecidableEq

/-- Modelled from the spec: controller operation `getTxFromDataStore`
(`../controllers/db-controller` is not in the sources).  Spec section 6:
found/not-found plus the transaction with its event sublist paginated by
`eventLimit` and `eventOffset`; omitted `eventLimit` fetches the full tail. -/
def getTxFromDataStore (db : DataStore) (txId : String)
    (eventLimit eventOffset : Option Nat) : Option TxQueryResult :=
  match db.txs.find? (fun t => t.tx_id == txId && t.canonical) with
  | none => none
  | some tx =>
    let evs := db.stxEvents.filter (fun e => e.tx_id == txId && e.canonical)
    let windowed :=
      match eventLimit with
      | none => evs.drop (eventOffset.getD 0)
      | some el => (evs.drop (eventOffset.getD 0)).take el
    some { tx := tx, events := windowed }

/-- Modelled from the spec: data-store operation `getBurnchainRewards` (the
datastore module is not in the sources).  Spec section 6: burnchain rewards
globally or filtered by recipient, returned as a plain result page. -/
def getBurnchainRewards (db : DataStore) (offset limit : Nat)
    (burnchainRecipient : Option String) : List DbBurnchainReward :=
  let rows := db.burnchainRewards.filter
    (fun r => match burnchainRecipient with
      | none => true
      | some a => r.reward_recipient == a)
  (rows.drop offset).take limit

/-- Result shape of the burnchain rewards total operation. -/
structure DbRewardsTotal where
  reward_recipient : String
  reward_amount : Nat
  deriving Repr, DecidableEq

/-- Modelled from the spec: data-store operation `getBurnchainRewardsTotal`
(the datastore module is not in the sources).  Spec section 6: the total
reward amount for the queried burnchain recipient. -/
def getBurnchainRewardsTotal (db : DataStore) (address : String) : DbRewardsTotal :=
  { reward_recipient := address,
    reward_amount :=
      (db.burnchainRewards.filter
        (fun r => r.canonical && r.reward_recipient == address)).foldl
        (fun acc r => acc + r.reward_amount) 0 }

/-- Modelled from the spec: helper `has0xPrefix` from `../../helpers`
(not in the sources).  Transaction ids are 0x-prefixed hex strings and the
route tests the id for that prefix; the test is expressed on the
character list of the string. -/
def has0xPrefix (s : String) : Bool :=
  match s.data with
  | c1 :: c2 :: _ => c1 == '0' && c2 == 'x'
  | _ => false

/-- Whitespace trim of a string, as applied to the address path parameter
in burnchain.ts lines 51 and 93, expressed on the character list of the
string. -/
def trimString (s : String) : String :=
  String.mk (((s.data.dropWhile Char.isWhitespace).reverse.dropWhile
    Char.isWhitespace).reverse)

/-- Modelled from the spec: controller helper `parseDbMempoolTx` from
`../controllers/db-controller` (not in the sources): renders a stored
mempool transaction row for the response; the spec does not constrain the
rendering, so the row's own fields are emitted. -/
def parseDbMempoolTx (m : DbMempoolTx) : Json :=
  Json.obj [("tx_id", Json.str m.tx_id),
            ("sender_address", Json.str m.sender_address),
            ("receipt_time", Json.num m.receipt_time)]

/-- Known transaction type strings (spec section 3 transaction payload kinds). -/
def txTypeStrings : List String :=
  ["token_transfer", "smart_contract", "contract_call", "poison_microblock", "coinbase"]

/-- Modelled from the spec: controller helper `parseTxTypeStrings` from
`../controllers/db-controller` (not in the sources): validates the optional
type filter values against the known transaction types. -/
def parseTxTypeStrings (values : List String) : Except String (List String) :=
  if values.all (fun v => txTypeStrings.contains v) then Except.ok values
  else Except.error "Unexpected tx type"

/-- Rendering of a single-transaction query result (tx row plus its
paginated event sublist) as the JSON response body. -/
def txQueryResultToJson (r : TxQueryResult) : Json :=
  Json.obj [("tx_id", Json.str r.tx.tx_id),
            ("tx_type", Json.str r.tx.tx_type),
            ("sender_address", Json.str r.tx.sender_address),
            ("fee_rate", Json.str (Nat.repr r.tx.fee_rate)),
            ("canonical", Json.bool r.tx.canonical),
            ("events", Json.arr (r.events.map (fun e =>
              Json.obj [("event_index", Json.num e.event_index),
                        ("sender", Json.str e.sender),
                        ("recipient", Json.str e.recipient),
                        ("amount", Json.str (Nat.repr e.amount))])))]

/-- Response body common to the paginated list routes of tx.ts (lines 66,
115, 127): an object carrying `limit`, `offset`, `total` and `results`. -/
def listResponseJson (limit offset total : Nat) (results : List Json) : Json :=
  Json.obj [("limit", Json.num limit), ("offset", Json.num offset),
            ("total", Json.num total), ("results", Json.arr results)]

/-- Response body of the burnchain reward list routes (burnchain.ts
lines 40 and 84): an object carrying `limit`, `offset` and `results`. -/
def burnchainListResponseJson (limit offset : Nat) (results : List Json) : Json :=
  Json.obj [("limit", Json.num limit), ("offset", Json.num offset),
            ("results", Json.arr results)]

/-- Query parameters of the transaction list route (tx.ts lines 40-54):
optional limit and offset, optional type filter (an array query value and a
single string value are both normalized to a list). -/
structure TxListQuery where
  limit : Option Nat
  offset : Option Nat
  type : Option (List String)
  deriving Repr

/-- Per-result re-fetch of the transaction list route (tx.ts lines 59-65):
each enumerated row is fetched again through `getTxFromDataStore`; a missing
row aborts the whole request. -/
def fetchTxResults (db : DataStore) : List DbTx → Option (List Json)
  | [] => some []
  | t :: rest =>
    match getTxFromDataStore db t.tx_id none none with
    | none => none
    | some r =>
      match fetchTxResults db rest with
      | none => none
      | some rs => some (txQueryResultToJson r :: rs)

/-- Transaction list route handler, embedded from tx.ts lines 40-74. -/
def handleTxList (db : DataStore) (q : TxListQuery) : RouteResponse :=
  match parseTxQueryLimit (q.limit.getD 96) with
  | Except.error msg => RouteResponse.json 400 (errJson msg)
  | Except.ok limit =>
    let offset := parsePagingQueryInput (q.offset.getD 0)
    match (match q.type with
           | none => Except.ok []
           | some vs => parseTxTypeStrings vs) with
    | Except.error msg => RouteResponse.json 500 (errJson msg)
    | Except.ok txTypeFilter =>
      let r := getTxList db offset limit txTypeFilter
      match fetchTxResults db r.results with
      | none =>
        RouteResponse.json 500
          (errJson "unexpected tx not found -- fix tx enumeration query")
      | some results =>
        RouteResponse.json 200 (listResponseJson limit offset r.total results)

/-- Query parameters of the mempool list route (tx.ts lines 76-99). -/
structure MempoolQuery where
  limit : Option Nat
  offset : Option Nat
  sender_address : Option String
  recipient_address : Option String
  address : Option String
  deriving Repr

/-- Per-parameter address validation of the mempool list route (tx.ts
lines 82-93): an absent or empty parameter yields no filter; a present value
must be a valid C32 STX address or the request fails naming the parameter. -/
def parseAddrParam (H : AddressHelpers) (p : String) (q : Option String) :
    Except String (Option String) :=
  match q with
  | none => Except.ok none
  | some addr =>
    if addr.isEmpty then Except.ok none
    else if H.isValidC32Address addr then Except.ok (some addr)
    else Except.error
      ("Invalid query parameter for \"" ++ p ++ "\": \"" ++ addr ++
        "\" is not a valid STX address")

/-- Mempool transaction list route handler, embedded from tx.ts
lines 76-117.  The thrown validation error is rendered with the JavaScript
`Error:` prefix as in the catch branch on line 95. -/
def handleMempoolTxList (H : AddressHelpers) (db : DataStore) (q : MempoolQuery) :
    RouteResponse :=
  match parseMempoolTxQueryLimit (q.limit.getD 96) with
  | Except.error msg => RouteResponse.json 400 (errJson msg)
  | Except.ok limit =>
    let offset := parsePagingQueryInput (q.offset.getD 0)
    match parseAddrParam H "sender_address" q.sender_address with
    | Except.error e => RouteResponse.json 400 (errJson ("Error: " ++ e))
    | Except.ok senderAddress =>
      match parseAddrParam H "recipient_address" q.recipient_address with
      | Except.error e => RouteResponse.json 400 (errJson ("Error: " ++ e))
      | Except.ok recipientAddress =>
        match parseAddrParam H "address" q.address with
        | Except.error e => RouteResponse.json 400 (errJson ("Error: " ++ e))
        | Except.ok address =>
          if address.isSome && (recipientAddress.isSome || senderAddress.isSome) then
            RouteResponse.json 400
              (errJson "The \"address\" filter cannot be specified with other address filters")
          else
            let r := getMempoolTxList db offset limit senderAddress recipientAddress address
            RouteResponse.json 200
              (listResponseJson limit offset r.total (r.results.map parseDbMempoolTx))

/-- Plain limit/offset query parameters. -/
structure PagingQuery where
  limit : Option Nat
  offset : Option Nat
  deriving Repr

/-- Dropped mempool transaction list route handler, embedded from tx.ts
lines 119-129. -/
def handleDroppedTxList (db : DataStore) (q : PagingQuery) : RouteResponse :=
  match parseTxQueryLimit (q.limit.getD 96) with
  | Except.error msg => RouteResponse.json 400 (errJson msg)
  | Except.ok limit =>
    let offset := parsePagingQueryInput (q.offset.getD 0)
    let r := getDroppedTxs db offset limit
    RouteResponse.json 200
      (listResponseJson limit offset r.total (r.results.map parseDbMempoolTx))

/-- Query parameters of the single-transaction route (tx.ts lines 185-186). -/
structure TxByIdQuery where
  event_limit : Option Nat
  event_offset : Option Nat
  deriving Repr

/-- Single-transaction route handler, embedded from tx.ts lines 179-201:
an id without the 0x prefix is redirected to the prefixed path; otherwise
the transaction is fetched with its paginated event sublist, and a missing
transaction yields a 404 error. -/
def handleTxById (db : DataStore) (tx_id : String) (q : TxByIdQuery) : RouteResponse :=
  if has0xPrefix tx_id then
    match parseTxQueryEventsLimit (q.event_limit.getD 96) with
    | Except.error msg => RouteResponse.json 400 (errJson msg)
    | Except.ok eventLimit =>
      let eventOffset := parsePagingQueryInput (q.event_offset.getD 0)
      match getTxFromDataStore db tx_id (some eventLimit) (some eventOffset) with
      | none =>
        RouteResponse.json 404 (errJson ("could not find transaction by ID " ++ tx_id))
      | some r => RouteResponse.json 200 (txQueryResultToJson r)
  else RouteResponse.redirect ("/extended/v1/tx/0x" ++ tx_id)

/-- Rendering of a burnchain reward row, embedded from burnchain.ts
lines 29-37: the amounts are rendered as decimal strings via `toString()`. -/
def burnchainRewardToJson (r : DbBurnchainReward) : Json :=
  Json.obj [("canonical", Json.bool r.canonical),
            ("burn_block_hash", Json.str r.burn_block_hash),
            ("burn_block_height", Json.num r.burn_block_height),
            ("burn_amount", Json.str (Nat.repr r.burn_amount)),
            ("reward_recipient", Json.str r.reward_recipient),
            ("reward_amount", Json.str (Nat.repr r.reward_amount)),
            ("reward_index", Json.num r.reward_index)]

/-- Burnchain reward list route handler, embedded from burnchain.ts
lines 23-43.  The response object carries `limit`, `offset` and `results`
(line 40). -/
def handleBurnchainRewards (db : DataStore) (q : PagingQuery) : RouteResponse :=
  match parseBlockQueryLimit (q.limit.getD 20) with
  | Except.error msg => RouteResponse.json 400 (errJson msg)
  | Except.ok limit =>
    let offset := parsePagingQueryInput (q.offset.getD 0)
    let queryResults := getBurnchainRewards db offset limit none
    RouteResponse.json 200
      (burnchainListResponseJson limit offset (queryResults.map burnchainRewardToJson))

/-- Address resolution shared by the per-recipient burnchain routes
(burnchain.ts lines 50-59 and 92-100): the trimmed path parameter is used
directly when it is a valid Bitcoin address, otherwise its C32-to-Bitcoin
conversion is used when the conversion yields a non-empty value (the route
tests the converted string for truthiness). -/
def resolveBurnchainAddress (H : AddressHelpers) (address : String) : Option String :=
  let queryAddr := trimString address
  if H.isValidBitcoinAddress queryAddr then some queryAddr
  else
    match H.tryConvertC32ToBtc queryAddr with
    | some convertedAddr => if convertedAddr.isEmpty then none else some convertedAddr
    | none => none

/-- Per-recipient burnchain reward list route handler, embedded from
burnchain.ts lines 45-87. -/
def handleBurnchainRewardsForAddr (H : AddressHelpers) (db : DataStore)
    (address : String) (q : PagingQuery) : RouteResponse :=
  match parseBlockQueryLimit (q.limit.getD 20) with
  | Except.error msg => RouteResponse.json 400 (errJson msg)
  | Except.ok limit =>
    let offset := parsePagingQueryInput (q.offset.getD 0)
    match resolveBurnchainAddress H address with
    | none =>
      RouteResponse.json 400
        (errJson ("Address " ++ trimString address ++ " is not a valid Bitcoin or STX address."))
    | some burnchainAddress =>
      let queryResults := getBurnchainRewards db offset limit (some burnchainAddress)
      RouteResponse.json 200
        (burnchainListResponseJson limit offset (queryResults.map burnchainRewardToJson))

/-- Burnchain rewards total route handler, embedded from burnchain.ts
lines 89-116. -/
def handleBurnchainRewardsTotal (H : AddressHelpers) (db : DataStore)
    (address : String) : RouteResponse :=
  match resolveBurnchainAddress H address with
  | none =>
    RouteResponse.json 400
      (errJson ("Address " ++ trimString address ++ " is not a valid Bitcoin or STX address."))
  | some burnchainAddress =>
    let queryResults := getBurnchainRewardsTotal db burnchainAddress
    RouteResponse.json 200
      (Json.obj [("reward_recipient", Json.str queryResults.reward_recipient),
                 ("reward_amount", Json.str (Nat.repr queryResults.reward_amount))])

/-- Modelled from the spec: ancestor walk of the reorg resolver (spec
section 4.3; the chain-state store module is not in the sources).  Walks the
parent-index-hash links backward, bounded by the fuel argument, stopping at
a block whose parent is not stored. -/
def ancestorChain (blocks : List DbBlock) : Nat → DbBlock → List DbBlock
  | 0, b => [b]
  | fuel + 1, b =>
    match blocks.find? (fun p => p.index_block_hash == b.parent_index_block_hash) with
    | some p => b :: ancestorChain blocks fuel p
    | none => [b]

/-- Modelled from the spec: the current canonical chain tip — the canonical
block of greatest height (spec section 3 invariant: exactly one canonical
block per height). -/
def canonicalTip (blocks : List DbBlock) : Option DbBlock :=
  (blocks.filter (fun b => b.canonical)).foldl
    (fun acc x =>
      match acc with
      | none => some x
      | some t => if x.block_height > t.block_height then some x else acc)
    none

/-- Modelled from the spec: `appendBlock(block, txs, events)` of the chain
state store together with the reorg resolver (spec sections 4.2-4.3; the
datastore module is not in the sources).  If the block's index-hash already
exists the call is a no-op (idempotent replay).  Otherwise the block and its
rows are inserted; when the block extends the tip or wins the height/most-
recent tie-break, canonical flags on blocks, transactions and events are
recomputed from the new tip's ancestor chain, and the mempool is updated:
transactions mined in the canonical chain are pruned, transactions left
mined only in non-canonical blocks are restored unless dropped. -/
def appendBlock (db : DataStore) (b : DbBlock) (txs : List DbTx)
    (events : List DbStxEvent) : DataStore :=
  if db.blocks.any (fun x => x.index_block_hash == b.index_block_hash) then db
  else
    let newTxs := txs.map (fun t => { t with index_block_hash := b.index_block_hash })
    let newEvents := events.map (fun e => { e with index_block_hash := b.index_block_hash })
    let becomesTip :=
      match canonicalTip db.blocks with
      | none => true
      | some tip =>
        b.parent_index_block_hash == tip.index_block_hash ||
          b.block_height ≥ tip.block_height
    if becomesTip then
      let allBlocks := { b with canonical := true } :: db.blocks
      let chainIds :=
        (ancestorChain allBlocks allBlocks.length { b with canonical := true }).map
          (fun x => x.index_block_hash)
      let blocks2 := allBlocks.map
        (fun x => { x with canonical := chainIds.contains x.index_block_hash })
      let txs2 := (newTxs ++ db.txs).map
        (fun t => { t with canonical := chainIds.contains t.index_block_hash })
      let events2 := (newEvents ++ db.stxEvents).map
        (fun e => { e with canonical := chainIds.contains e.index_block_hash })
      let mempool2 := db.mempoolTxs.map (fun m =>
        if txs2.any (fun t => t.tx_id == m.tx_id && t.canonical) then
          { m with pruned := true }
        else if m.dropped then m
        else if txs2.any (fun t => t.tx_id == m.tx_id) then { m with pruned := false }
        else m)
      { blocks := blocks2, txs := txs2, stxEvents := events2,
        mempoolTxs := mempool2, burnchainRewards := db.burnchainRewards }
    else
      { db with
          blocks := { b with canonical := false } :: db.blocks,
          txs := newTxs.map (fun t => { t with canonical := false }) ++ db.txs,
          stxEvents := newEvents.map (fun e => { e with canonical := false }) ++ db.stxEvents }

/-- Modelled from the spec: derived account balance (spec section 4.5; the
aggregate recalculator is not in the sources): sum of canonical incoming
transfer amounts minus canonical outgoing amounts minus fees of canonical
transactions sent by the address (lock bookkeeping carries no events in this
model and is omitted). -/
def getBalance (db : DataStore) (addr : String) : Int :=
  let canonEvents := db.stxEvents.filter (fun e => e.canonical)
  let credits := (canonEvents.filter (fun e => e.recipient == addr)).foldl
    (fun acc e => acc + (e.amount : Int)) 0
  let debits := (canonEvents.filter (fun e => e.sender == addr)).foldl
    (fun acc e => acc + (e.amount : Int)) 0
  let fees := (db.txs.filter (fun t => t.canonical && t.sender_address == addr)).foldl
    (fun acc t => acc + (t.fee_rate : Int)) 0
  credits - debits - fees

/-- Requests served by the query routes of tx.ts and burnchain.ts. -/
inductive ApiRequest where
  | txList (q : TxListQuery)
  | mempoolTxList (q : MempoolQuery)
  | droppedTxList (q : PagingQuery)
  | txById (tx_id : String) (q : TxByIdQuery)
  | burnchainRewards (q : PagingQuery)
  | burnchainRewardsForAddr (address : String) (q : PagingQuery)
  | burnchainRewardsTotal (address : String)

/-- Dispatch of the query routers (createTxRouter, createBurnchainRouter):
each request is served by its handler over the store handle; the resulting
store is returned alongside the response.  The handlers invoke only the
read operations of the data store. -/
def handleApiRequest (H : AddressHelpers) (db : DataStore) :
    ApiRequest → RouteResponse × DataStore
  | ApiRequest.txList q => (handleTxList db q, db)
  | ApiRequest.mempoolTxList q => (handleMempoolTxList H db q, db)
  | ApiRequest.droppedTxList q => (handleDroppedTxList db q, db)
  | ApiRequest.txById tx_id q => (handleTxById db tx_id q, db)
  | ApiRequest.burnchainRewards q => (handleBurnchainRewards db q, db)
  | ApiRequest.burnchainRewardsForAddr address q =>
    (handleBurnchainRewardsForAddr H db address q, db)
  | ApiRequest.burnchainRewardsTotal address =>
    (handleBurnchainRewardsTotal H db address, db)

/-- Concrete address helpers for exercising the handlers on closed inputs:
two fixed C32 addresses, one fixed Bitcoin address, and a conversion that
maps one of the C32 addresses to a Bitcoin form. -/
def demoHelpers : AddressHelpers :=
  { isValidC32Address := fun s => s == "SA" || s == "SB",
    isValidBitcoinAddress := fun s => s == "1BTC",
    tryConvertC32ToBtc := fun s => if s == "SA" then some "1CONVERTED" else none }

/-- The empty chain state store. -/
def emptyStore : DataStore :=
  { blocks := [], txs := [], stxEvents := [], mempoolTxs := [], burnchainRewards := [] }

theorem parseLimitQuery_ok (maxItems : Nat) (msg : String) (n : Nat)
    (h : n ≤ maxItems) : parseLimitQuery maxItems msg n = Except.ok n := by
  simp [parseLimitQuery, Nat.not_lt.mpr h]

theorem parseLimitQuery_err (maxItems : Nat) (msg : String) (n : Nat)
    (h : maxItems < n) : parseLimitQuery maxItems msg n = Except.error msg := by
  simp [parseLimitQuery, h]

theorem listResponseJson_getField_total (l o t : Nat) (rs : List Json) :
    (listResponseJson l o t rs).getField "total" = some (Json.num t) := by
  simp [listResponseJson, Json.getField, List.lookup]

theorem burnchainListResponseJson_getField_total (l o : Nat) (rs : List Json) :
    (burnchainListResponseJson l o rs).getField "total" = none := by
  simp [burnchainListResponseJson, Json.getField, List.lookup]

theorem handleMempoolTxList_ok (H : AddressHelpers) (db : DataStore)
    (q : MempoolQuery) (l : Nat) (s r a : Option String)
    (hl : parseMempoolTxQueryLimit (q.limit.getD 96) = Except.ok l)
    (hs : parseAddrParam H "sender_address" q.sender_address = Except.ok s)
    (hr : parseAddrParam H "recipient_address" q.recipient_address = Except.ok r)
    (ha : parseAddrParam H "address" q.address = Except.ok a)
    (hx : (a.isSome && (r.isSome || s.isSome)) = false) :
    handleMempoolTxList H db q =
      RouteResponse.json 200
        (listResponseJson l (q.offset.getD 0)
          (getMempoolTxList db (q.offset.getD 0) l s r a).total
          ((getMempoolTxList db (q.offset.getD 0) l s r a).results.map parseDbMempoolTx)) := by
  unfold handleMempoolTxList
  rw [hl, hs, hr, ha]
  simp [hx, parsePagingQueryInput]

/-- Claim C1: for every mempool transaction list request in which the
combined `address` filter is supplied together with either `sender_address`
or `recipient_address`, the operation fails with a client input error
(HTTP 400) and returns no result list; if at most one kind of address
filter is supplied, the query proceeds (tx.ts lines 99-112).  The parsed
filters `s`, `r`, `a` are `some` exactly when the corresponding parameter
is supplied (non-empty) and valid. -/
theorem mempool_combined_address_filter_rejected (H : AddressHelpers)
    (db : DataStore) (q : MempoolQuery) (l : Nat) (s r a : Option String)
    (hl : parseMempoolTxQueryLimit (q.limit.getD 96) = Except.ok l)
    (hs : parseAddrParam H "sender_address" q.sender_address = Except.ok s)
    (hr : parseAddrParam H "recipient_address" q.recipient_address = Except.ok r)
    (ha : parseAddrParam H "address" q.address = Except.ok a) :
    (a.isSome = true ∧ (r.isSome = true ∨ s.isSome = true) →
      handleMempoolTxList H db q =
        RouteResponse.json 400
          (errJson "The \"address\" filter cannot be specified with other address filters"))
    ∧ (¬(a.isSome = true ∧ (r.isSome = true ∨ s.isSome = true)) →
      ∃ body, handleMempoolTxList H db q = RouteResponse.json 200 body) := by
  constructor
  · rintro ⟨ha2, hrs⟩
    have hb : (a.isSome && (r.isSome || s.isSome)) = true := by
      rcases hrs with h | h <;> simp [ha2, h]
    unfold handleMempoolTxList
    rw [hl, hs, hr, ha]
    simp [hb]
  · intro hn
    have hb : (a.isSome && (r.isSome || s.isSome)) = false := by
      rcases hx : (a.isSome && (r.isSome || s.isSome)) with _ | _
      · rfl
      · exact absurd (by simpa [Bool.and_eq_true, Bool.or_eq_true] using hx) hn
    exact ⟨_, handleMempoolTxList_ok H db q l s r a hl hs hr ha hb⟩

/-- Witness for C1: with both `address` and `sender_address` supplied the
request is rejected with the combined-filter error. -/
theorem mempool_combined_address_filter_rejected_witness :
    handleMempoolTxList demoHelpers emptyStore
      { limit := none, offset := none, sender_address := some "SA",
        recipient_address := none, address := some "SB" } =
      RouteResponse.json 400
        (errJson "The \"address\" filter cannot be specified with other address filters") :=
  (mempool_combined_address_filter_rejected demoHelpers emptyStore
    { limit := none, offset := none, sender_address := some "SA",
      recipient_address := none, address := some "SB" }
    96 (some "SA") none (some "SB") rfl rfl rfl rfl).1
    (by simp)

/-- A stored block used in concrete instantiations. -/
def demoBlock : DbBlock :=
  { block_hash := "0xb1", index_block_hash := "0xib1",
    parent_index_block_hash := "0xib0", parent_block_hash := "0xb0",
    block_height := 1, canonical := true }

/-- A stored canonical transaction used in concrete instantiations. -/
def demoTx : DbTx :=
  { tx_id := "0xt1", index_block_hash := "0xib1", tx_type := "token_transfer",
    status := 1, sender_address := "SA", fee_rate := 2, canonical := true }

/-- A stored canonical event used in concrete instantiations. -/
def demoEvent : DbStxEvent :=
  { tx_id := "0xt1", event_index := 0, index_block_hash := "0xib1",
    sender := "SA", recipient := "SB", amount := 100, canonical := true }

/-- A pending mempool transaction used in concrete instantiations. -/
def demoMempoolTx : DbMempoolTx :=
  { tx_id := "0xt2", sender_address := "SA", recipient_address := some "SB",
    receipt_time := 5, pruned := false, dropped := false, drop_reason := none }

/-- A stored burnchain reward used in concrete instantiations. -/
def demoReward : DbBurnchainReward :=
  { canonical := true, burn_block_hash := "0xbb1", burn_block_height := 7,
    burn_amount := 500, reward_recipient := "1BTC", reward_amount := 250,
    reward_index := 0 }

/-- A populated chain state store used in concrete instantiations. -/
def demoStore : DataStore :=
  { blocks := [demoBlock], txs := [demoTx], stxEvents := [demoEvent],
    mempoolTxs := [demoMempoolTx], burnchainRewards := [demoReward] }

/-- Claim C8: for every mempool transaction list request, each of
`sender_address`, `recipient_address` and `address`, when present and
non-empty, must be a valid C32 STX address: an invalid value fails the
request with HTTP 400 and an error naming the offending parameter, and the
response does not depend on the data store (no data-store call decides it);
an absent parameter parses to no filter (tx.ts lines 80-97). -/
theorem mempool_address_params_validated (H : AddressHelpers)
    (db db2 : DataStore) (q : MempoolQuery) (l : Nat)
    (hl : parseMempoolTxQueryLimit (q.limit.getD 96) = Except.ok l) :
    (∀ v, q.sender_address = some v → v.isEmpty = false →
      H.isValidC32Address v = false →
      handleMempoolTxList H db q =
        RouteResponse.json 400
          (errJson ("Error: " ++ ("Invalid query parameter for \"" ++ "sender_address" ++
            "\": \"" ++ v ++ "\" is not a valid STX address")))
      ∧ handleMempoolTxList H db q = handleMempoolTxList H db2 q)
    ∧ (∀ s, parseAddrParam H "sender_address" q.sender_address = Except.ok s →
      ∀ v, q.recipient_address = some v → v.isEmpty = false →
      H.isValidC32Address v = false →
      handleMempoolTxList H db q =
        RouteResponse.json 400
          (errJson ("Error: " ++ ("Invalid query parameter for \"" ++ "recipient_address" ++
            "\": \"" ++ v ++ "\" is not a valid STX address")))
      ∧ handleMempoolTxList H db q = handleMempoolTxList H db2 q)
    ∧ (∀ s r, parseAddrParam H "sender_address" q.sender_address = Except.ok s →
      parseAddrParam H "recipient_address" q.recipient_address = Except.ok r →
      ∀ v, q.address = some v → v.isEmpty = false →
      H.isValidC32Address v = false →
      handleMempoolTxList H db q =
        RouteResponse.json 400
          (errJson ("Error: " ++ ("Invalid query parameter for \"" ++ "address" ++
            "\": \"" ++ v ++ "\" is not a valid STX address")))
      ∧ handleMempoolTxList H db q = handleMempoolTxList H db2 q)
    ∧ (q.sender_address = none →
      parseAddrParam H "sender_address" q.sender_address = Except.ok none)
    ∧ (q.recipient_address = none →
      parseAddrParam H "recipient_address" q.recipient_address = Except.ok none)
    ∧ (q.address = none →
      parseAddrParam H "address" q.address = Except.ok none) := by
  refine ⟨?_, ?_, ?_, ?_, ?_, ?_⟩
  · intro v hv hemp hinv
    have hperr : parseAddrParam H "sender_address" q.sender_address =
        Except.error ("Invalid query parameter for \"" ++ "sender_address" ++
          "\": \"" ++ v ++ "\" is not a valid STX address") := by
      rw [hv]; simp [parseAddrParam, hemp, hinv]
    constructor
    · unfold handleMempoolTxList
      rw [hl, hperr]
    · unfold handleMempoolTxList
      rw [hl, hperr]
  · intro s hsok v hv hemp hinv
    have hperr : parseAddrParam H "recipient_address" q.recipient_address =
        Except.error ("Invalid query parameter for \"" ++ "recipient_address" ++
          "\": \"" ++ v ++ "\" is not a valid STX address") := by
      rw [hv]; simp [parseAddrParam, hemp, hinv]
    constructor
    · unfold handleMempoolTxList
      rw [hl, hsok, hperr]
    · unfold handleMempoolTxList
      rw [hl, hsok, hperr]
  · intro s r hsok hrok v hv hemp hinv
    have hperr : parseAddrParam H "address" q.address =
        Except.error ("Invalid query parameter for \"" ++ "address" ++
          "\": \"" ++ v ++ "\" is not a valid STX address") := by
      rw [hv]; simp [parseAddrParam, hemp, hinv]
    constructor
    · unfold handleMempoolTxList
      rw [hl, hsok, hrok, hperr]
    · unfold handleMempoolTxList
      rw [hl, hsok, hrok, hperr]
  · intro hnone; rw [hnone]; rfl
  · intro hnone; rw [hnone]; rfl
  · intro hnone; rw [hnone]; rfl

/-- Witness for C8: a request whose `sender_address` is not a valid C32
address is rejected with HTTP 400 naming the parameter, identically over
two different stores. -/
theorem mempool_address_params_validated_witness :
    handleMempoolTxList demoHelpers emptyStore
      { limit := none, offset := none, sender_address := some "XBAD",
        recipient_address := none, address := none } =
      RouteResponse.json 400
        (errJson ("Error: " ++ ("Invalid query parameter for \"" ++ "sender_address" ++
          "\": \"" ++ "XBAD" ++ "\" is not a valid STX address")))
    ∧ handleMempoolTxList demoHelpers emptyStore
      { limit := none, offset := none, sender_address := some "XBAD",
        recipient_address := none, address := none } =
      handleMempoolTxList demoHelpers demoStore
      { limit := none, offset := none, sender_address := some "XBAD",
        recipient_address := none, address := none } :=
  (mempool_address_params_validated demoHelpers emptyStore demoStore
    { limit := none, offset := none, sender_address := some "XBAD",
      recipient_address := none, address := none } 96 rfl).1
    "XBAD" rfl (by decide) (by decide)

/-- Claim C10: a single-transaction fetch whose `tx_id` path parameter
lacks the 0x prefix responds with a redirect to the same transaction path
with 0x prepended, independent of the data store (no lookup) and with no
error (tx.ts lines 179-183). -/
theorem tx_by_id_redirect_unprefixed (db : DataStore) (tx_id : String)
    (q : TxByIdQuery) (h : has0xPrefix tx_id = false) :
    handleTxById db tx_id q = RouteResponse.redirect ("/extended/v1/tx/0x" ++ tx_id)
    ∧ (∀ db2, handleTxById db tx_id q = handleTxById db2 tx_id q) := by
  constructor
  · simp [handleTxById, h]
  · intro db2
    simp [handleTxById, h]

/-- Witness for C10: the un-prefixed id "t1" is redirected. -/
theorem tx_by_id_redirect_unprefixed_witness :
    handleTxById demoStore "t1" { event_limit := none, event_offset := none } =
      RouteResponse.redirect ("/extended/v1/tx/0x" ++ "t1") :=
  (tx_by_id_redirect_unprefixed demoStore "t1"
    { event_limit := none, event_offset := none } (by decide)).1

/-- Claim C7: for every address accepted by the burnchain rewards total
operation (resolving to the burnchain recipient `b`), the response is an
object with `reward_recipient` the queried burnchain recipient and
`reward_amount` the total reward amount rendered as a decimal string
(burnchain.ts lines 89-116). -/
theorem burnchain_rewards_total_response (H : AddressHelpers) (db : DataStore)
    (address b : String) (hres : resolveBurnchainAddress H address = some b) :
    handleBurnchainRewardsTotal H db address =
      RouteResponse.json 200
        (Json.obj [("reward_recipient", Json.str b),
                   ("reward_amount",
                     Json.str (Nat.repr (getBurnchainRewardsTotal db b).reward_amount))]) := by
  unfold handleBurnchainRewardsTotal
  rw [hres]
  rfl

/-- Witness for C7: the rewards total for the Bitcoin address "1BTC". -/
theorem burnchain_rewards_total_response_witness :
    handleBurnchainRewardsTotal demoHelpers demoStore "1BTC" =
      RouteResponse.json 200
        (Json.obj [("reward_recipient", Json.str "1BTC"),
                   ("reward_amount",
                     Json.str (Nat.repr (getBurnchainRewardsTotal demoStore "1BTC").reward_amount))]) :=
  burnchain_rewards_total_response demoHelpers demoStore "1BTC" "1BTC" rfl

/-- Claim C9: for both burnchain reward address endpoints the address path
parameter is trimmed and resolved: a valid Bitcoin address is used
directly; an address converting from C32 to a (non-empty) Bitcoin form is
replaced by the converted form before querying; any other address yields
HTTP 400 with no data-store query (the response does not depend on the
store).  Embedded from burnchain.ts lines 45-71 and 89-108. -/
theorem burnchain_address_resolution (H : AddressHelpers) (db db2 : DataStore)
    (address : String) (q : PagingQuery)
    (hlim : q.limit.getD 20 ≤ MAX_BLOCKS_PER_REQUEST) :
    (H.isValidBitcoinAddress (trimString address) = true →
      handleBurnchainRewardsForAddr H db address q =
        RouteResponse.json 200
          (burnchainListResponseJson (q.limit.getD 20) (q.offset.getD 0)
            ((getBurnchainRewards db (q.offset.getD 0) (q.limit.getD 20)
              (some (trimString address))).map burnchainRewardToJson))
      ∧ handleBurnchainRewardsTotal H db address =
        RouteResponse.json 200
          (Json.obj [("reward_recipient", Json.str (trimString address)),
                     ("reward_amount",
                       Json.str (Nat.repr
                         (getBurnchainRewardsTotal db (trimString address)).reward_amount))]))
    ∧ (∀ b, H.isValidBitcoinAddress (trimString address) = false →
      H.tryConvertC32ToBtc (trimString address) = some b → b.isEmpty = false →
      handleBurnchainRewardsForAddr H db address q =
        RouteResponse.json 200
          (burnchainListResponseJson (q.limit.getD 20) (q.offset.getD 0)
            ((getBurnchainRewards db (q.offset.getD 0) (q.limit.getD 20)
              (some b)).map burnchainRewardToJson))
      ∧ handleBurnchainRewardsTotal H db address =
        RouteResponse.json 200
          (Json.obj [("reward_recipient", Json.str b),
                     ("reward_amount",
                       Json.str (Nat.repr
                         (getBurnchainRewardsTotal db b).reward_amount))]))
    ∧ (H.isValidBitcoinAddress (trimString address) = false →
      H.tryConvertC32ToBtc (trimString address) = none →
      handleBurnchainRewardsForAddr H db address q =
        RouteResponse.json 400
          (errJson ("Address " ++ trimString address ++
            " is not a valid Bitcoin or STX address."))
      ∧ handleBurnchainRewardsTotal H db address =
        RouteResponse.json 400
          (errJson ("Address " ++ trimString address ++
            " is not a valid Bitcoin or STX address."))
      ∧ handleBurnchainRewardsForAddr H db address q =
        handleBurnchainRewardsForAddr H db2 address q
      ∧ handleBurnchainRewardsTotal H db address =
        handleBurnchainRewardsTotal H db2 address) := by
  have hl : parseBlockQueryLimit (q.limit.getD 20) = Except.ok (q.limit.getD 20) :=
    parseLimitQuery_ok MAX_BLOCKS_PER_REQUEST _ _ hlim
  refine ⟨?_, ?_, ?_⟩
  · intro hbtc
    have hres : resolveBurnchainAddress H address = some (trimString address) := by
      simp [resolveBurnchainAddress, hbtc]
    constructor
    · unfold handleBurnchainRewardsForAddr
      rw [hl, hres]
      rfl
    · unfold handleBurnchainRewardsTotal
      rw [hres]
      rfl
  · intro b hbtc hconv hne
    have hres : resolveBurnchainAddress H address = some b := by
      simp [resolveBurnchainAddress, hbtc, hconv, hne]
    constructor
    · unfold handleBurnchainRewardsForAddr
      rw [hl, hres]
      rfl
    · unfold handleBurnchainRewardsTotal
      rw [hres]
      rfl
  · intro hbtc hconv
    have hres : resolveBurnchainAddress H address = none := by
      simp [resolveBurnchainAddress, hbtc, hconv]
    refine ⟨?_, ?_, ?_, ?_⟩
    · unfold handleBurnchainRewardsForAddr
      rw [hl, hres]
    · unfold handleBurnchainRewardsTotal
      rw [hres]
    · unfold handleBurnchainRewardsForAddr
      rw [hl, hres]
    · unfold handleBurnchainRewardsTotal
      rw [hres]

/-- Witness for C9: the C32 address "SA" is converted to "1CONVERTED"
before querying, on both address endpoints. -/
theorem burnchain_address_resolution_witness :
    handleBurnchainRewardsForAddr demoHelpers demoStore "SA"
      { limit := none, offset := none } =
      RouteResponse.json 200
        (burnchainListResponseJson 20 0
          ((getBurnchainRewards demoStore 0 20 (some "1CONVERTED")).map
            burnchainRewardToJson))
    ∧ handleBurnchainRewardsTotal demoHelpers demoStore "SA" =
      RouteResponse.json 200
        (Json.obj [("reward_recipient", Json.str "1CONVERTED"),
                   ("reward_amount",
                     Json.str (Nat.repr
                       (getBurnchainRewardsTotal demoStore "1CONVERTED").reward_amount))]) :=
  (burnchain_address_resolution demoHelpers demoStore demoStore "SA"
    { limit := none, offset := none } (by decide)).2.1
    "1CONVERTED" (by decide) rfl (by decide)

theorem getTxFromDataStore_events (db : DataStore) (txId : String)
    (el eo : Nat) (r : TxQueryResult)
    (h : getTxFromDataStore db txId (some el) (some eo) = some r) :
    r.events = ((db.stxEvents.filter
      (fun e => e.tx_id == txId && e.canonical)).drop eo).take el := by
  unfold getTxFromDataStore at h
  cases hfind : db.txs.find? (fun t => t.tx_id == txId && t.canonical) with
  | none => rw [hfind] at h; simp at h
  | some tx =>
    rw [hfind] at h
    simp only [Option.some.injEq] at h
    subst h
    rfl

/-- Claim C4: for every single-transaction fetch by a 0x-prefixed id, the
operation returns the transaction with its event sublist paginated by
`event_limit` and `event_offset` when the transaction exists, and a
not-found outcome (HTTP 404 with an error message) when it does not
(tx.ts lines 179-201). -/
theorem tx_by_id_found_or_not_found (db : DataStore) (tx_id : String)
    (q : TxByIdQuery) (h0x : has0xPrefix tx_id = true)
    (hel : q.event_limit.getD 96 ≤ MAX_EVENTS_PER_REQUEST) :
    (∀ r, getTxFromDataStore db tx_id (some (q.event_limit.getD 96))
        (some (q.event_offset.getD 0)) = some r →
      handleTxById db tx_id q = RouteResponse.json 200 (txQueryResultToJson r)
      ∧ r.events = ((db.stxEvents.filter
          (fun e => e.tx_id == tx_id && e.canonical)).drop
          (q.event_offset.getD 0)).take (q.event_limit.getD 96))
    ∧ (getTxFromDataStore db tx_id (some (q.event_limit.getD 96))
        (some (q.event_offset.getD 0)) = none →
      handleTxById db tx_id q =
        RouteResponse.json 404 (errJson ("could not find transaction by ID " ++ tx_id))) := by
  have hl : parseTxQueryEventsLimit (q.event_limit.getD 96) =
      Except.ok (q.event_limit.getD 96) :=
    parseLimitQuery_ok MAX_EVENTS_PER_REQUEST _ _ hel
  constructor
  · intro r hr
    constructor
    · unfold handleTxById
      rw [h0x]
      simp only [if_true]
      rw [hl]
      simp only [parsePagingQueryInput]
      rw [hr]
    · exact getTxFromDataStore_events db tx_id _ _ r hr
  · intro hnone
    unfold handleTxById
    rw [h0x]
    simp only [if_true]
    rw [hl]
    simp only [parsePagingQueryInput]
    rw [hnone]

/-- Witness for C4: the stored transaction 0xt1 is found with its single
event; the unknown id 0xZZ yields the 404 error. -/
theorem tx_by_id_found_or_not_found_witness :
    (handleTxById demoStore "0xt1" { event_limit := none, event_offset := none } =
      RouteResponse.json 200
        (txQueryResultToJson { tx := demoTx, events := [demoEvent] }))
    ∧ (handleTxById demoStore "0xZZ" { event_limit := none, event_offset := none } =
      RouteResponse.json 404 (errJson ("could not find transaction by ID " ++ "0xZZ"))) :=
  ⟨((tx_by_id_found_or_not_found demoStore "0xt1"
      { event_limit := none, event_offset := none } (by decide) (by decide)).1
      { tx := demoTx, events := [demoEvent] } rfl).1,
   (tx_by_id_found_or_not_found demoStore "0xZZ"
      { event_limit := none, event_offset := none } (by decide) (by decide)).2 rfl⟩

/-- Claim C3: requesting a limit strictly greater than the endpoint's
declared maximum (200 for transaction, mempool, dropped-transaction and
per-transaction event lists; 30 for burnchain reward lists) yields a client
error rather than any results, and an omitted limit behaves as the
endpoint's default limit (96 for the tx.ts routes, 20 for the burnchain
routes). -/
theorem endpoint_limit_bounds_and_defaults (H : AddressHelpers) (db : DataStore) :
    (∀ (q : TxListQuery) (n : Nat), q.limit = some n → MAX_TXS_PER_REQUEST < n →
      handleTxList db q = RouteResponse.json 400
        (errJson ("`limit` must be equal to or less than " ++ toString MAX_TXS_PER_REQUEST)))
    ∧ (∀ (q : MempoolQuery) (n : Nat), q.limit = some n →
      MAX_MEMPOOL_TXS_PER_REQUEST < n →
      handleMempoolTxList H db q = RouteResponse.json 400
        (errJson ("`limit` must be equal to or less than " ++
          toString MAX_MEMPOOL_TXS_PER_REQUEST)))
    ∧ (∀ (q : PagingQuery) (n : Nat), q.limit = some n → MAX_TXS_PER_REQUEST < n →
      handleDroppedTxList db q = RouteResponse.json 400
        (errJson ("`limit` must be equal to or less than " ++ toString MAX_TXS_PER_REQUEST)))
    ∧ (∀ (tx_id : String) (q : TxByIdQuery) (n : Nat), has0xPrefix tx_id = true →
      q.event_limit = some n → MAX_EVENTS_PER_REQUEST < n →
      handleTxById db tx_id q = RouteResponse.json 400
        (errJson ("`event_limit` must be equal to or less than " ++
          toString MAX_EVENTS_PER_REQUEST)))
    ∧ (∀ (q : PagingQuery) (n : Nat), q.limit = some n → MAX_BLOCKS_PER_REQUEST < n →
      handleBurnchainRewards db q = RouteResponse.json 400
        (errJson ("`limit` must be equal to or less than " ++ toString MAX_BLOCKS_PER_REQUEST)))
    ∧ (∀ (address : String) (q : PagingQuery) (n : Nat), q.limit = some n →
      MAX_BLOCKS_PER_REQUEST < n →
      handleBurnchainRewardsForAddr H db address q = RouteResponse.json 400
        (errJson ("`limit` must be equal to or less than " ++ toString MAX_BLOCKS_PER_REQUEST)))
    ∧ (∀ off tf, handleTxList db { limit := none, offset := off, type := tf } =
        handleTxList db { limit := some 96, offset := off, type := tf })
    ∧ (∀ off s r a, handleMempoolTxList H db
        { limit := none, offset := off, sender_address := s,
          recipient_address := r, address := a } =
        handleMempoolTxList H db
        { limit := some 96, offset := off, sender_address := s,
          recipient_address := r, address := a })
    ∧ (∀ off, handleDroppedTxList db { limit := none, offset := off } =
        handleDroppedTxList db { limit := some 96, offset := off })
    ∧ (∀ tx_id eo, handleTxById db tx_id { event_limit := none, event_offset := eo } =
        handleTxById db tx_id { event_limit := some 96, event_offset := eo })
    ∧ (∀ off, handleBurnchainRewards db { limit := none, offset := off } =
        handleBurnchainRewards db { limit := some 20, offset := off })
    ∧ (∀ off address,
        handleBurnchainRewardsForAddr H db address { limit := none, offset := off } =
        handleBurnchainRewardsForAddr H db address { limit := some 20, offset := off }) := by
  refine ⟨?_, ?_, ?_, ?_, ?_, ?_, ?_, ?_, ?_, ?_, ?_, ?_⟩
  · intro q n hq hgt
    have he := parseLimitQuery_err MAX_TXS_PER_REQUEST
      ("`limit` must be equal to or less than " ++ toString MAX_TXS_PER_REQUEST) n hgt
    unfold handleTxList parseTxQueryLimit
    rw [hq]
    simp only [Option.getD_some]
    rw [he]
  · intro q n hq hgt
    have he := parseLimitQuery_err MAX_MEMPOOL_TXS_PER_REQUEST
      ("`limit` must be equal to or less than " ++ toString MAX_MEMPOOL_TXS_PER_REQUEST) n hgt
    unfold handleMempoolTxList parseMempoolTxQueryLimit
    rw [hq]
    simp only [Option.getD_some]
    rw [he]
  · intro q n hq hgt
    have he := parseLimitQuery_err MAX_TXS_PER_REQUEST
      ("`limit` must be equal to or less than " ++ toString MAX_TXS_PER_REQUEST) n hgt
    unfold handleDroppedTxList parseTxQueryLimit
    rw [hq]
    simp only [Option.getD_some]
    rw [he]
  · intro tx_id q n h0x hq hgt
    have he := parseLimitQuery_err MAX_EVENTS_PER_REQUEST
      ("`event_limit` must be equal to or less than " ++ toString MAX_EVENTS_PER_REQUEST) n hgt
    unfold handleTxById parseTxQueryEventsLimit
    rw [h0x]
    simp only [if_true]
    rw [hq]
    simp only [Option.getD_some]
    rw [he]
  · intro q n hq hgt
    have he := parseLimitQuery_err MAX_BLOCKS_PER_REQUEST
      ("`limit` must be equal to or less than " ++ toString MAX_BLOCKS_PER_REQUEST) n hgt
    unfold handleBurnchainRewards parseBlockQueryLimit
    rw [hq]
    simp only [Option.getD_some]
    rw [he]
  · intro address q n hq hgt
    have he := parseLimitQuery_err MAX_BLOCKS_PER_REQUEST
      ("`limit` must be equal to or less than " ++ toString MAX_BLOCKS_PER_REQUEST) n hgt
    unfold handleBurnchainRewardsForAddr parseBlockQueryLimit
    rw [hq]
    simp only [Option.getD_some]
    rw [he]
  · intro off tf; rfl
  · intro off s r a; rfl
  · intro off; rfl
  · intro tx_id eo; rfl
  · intro off; rfl
  · intro off address; rfl

/-- Witness for C3: limit 201 is rejected on the transaction list and
limit 31 on the burnchain reward list. -/
theorem endpoint_limit_bounds_and_defaults_witness :
    (handleTxList demoStore { limit := some 201, offset := none, type := none } =
      RouteResponse.json 400
        (errJson ("`limit` must be equal to or less than " ++ toString MAX_TXS_PER_REQUEST)))
    ∧ (handleBurnchainRewards demoStore { limit := some 31, offset := none } =
      RouteResponse.json 400
        (errJson ("`limit` must be equal to or less than " ++
          toString MAX_BLOCKS_PER_REQUEST))) :=
  ⟨(endpoint_limit_bounds_and_defaults demoHelpers demoStore).1
      { limit := some 201, offset := none, type := none } 201 rfl (by decide),
   (endpoint_limit_bounds_and_defaults demoHelpers demoStore).2.2.2.2.1
      { limit := some 31, offset := none } 31 rfl (by decide)⟩

/-- Claim C6: no query operation mutates stored chain state: for every
request served by the query routers — including requests that fail with a
client input error — the data store is unchanged, and so are the derived
balances and the mempool; the routes invoke only the read operations of the
data store (tx.ts lines 37-204, burnchain.ts lines 20-119). -/
theorem query_routes_read_only (H : AddressHelpers) (db : DataStore)
    (req : ApiRequest) :
    (handleApiRequest H db req).2 = db
    ∧ (∀ addr, getBalance (handleApiRequest H db req).2 addr = getBalance db addr)
    ∧ (handleApiRequest H db req).2.mempoolTxs = db.mempoolTxs := by
  cases req <;> exact ⟨rfl, fun _ => rfl, rfl⟩

/-- Claim C5: re-appending a block whose index-hash is already stored is a
no-op: the store, its canonical flags, the derived balances and the mempool
state are unchanged (idempotent replay, spec sections 4.2 and 8). -/
theorem appendBlock_replay_noop (db : DataStore) (b : DbBlock)
    (txs : List DbTx) (events : List DbStxEvent)
    (hdup : db.blocks.any (fun x => x.index_block_hash == b.index_block_hash) = true) :
    appendBlock db b txs events = db
    ∧ (appendBlock db b txs events).blocks.map DbBlock.canonical =
        db.blocks.map DbBlock.canonical
    ∧ (∀ addr, getBalance (appendBlock db b txs events) addr = getBalance db addr)
    ∧ (appendBlock db b txs events).mempoolTxs = db.mempoolTxs := by
  have h : appendBlock db b txs events = db := by
    unfold appendBlock
    rw [if_pos hdup]
  exact ⟨h, by rw [h], fun addr => by rw [h], by rw [h]⟩

/-- Witness for C5: replaying the already-stored demo block leaves the demo
store untouched. -/
theorem appendBlock_replay_noop_witness :
    appendBlock demoStore demoBlock [] [] = demoStore
    ∧ (appendBlock demoStore demoBlock [] []).blocks.map DbBlock.canonical =
        demoStore.blocks.map DbBlock.canonical
    ∧ (∀ addr, getBalance (appendBlock demoStore demoBlock [] []) addr =
        getBalance demoStore addr)
    ∧ (appendBlock demoStore demoBlock [] []).mempoolTxs = demoStore.mempoolTxs :=
  appendBlock_replay_noop demoStore demoBlock [] [] (by decide)

/-- Counterexample for C2 as stated: at a concrete store with one reward and
a default request, the burnchain reward list response is a 200 whose body
has no `total` field at all, so the burnchain reward list responses do not
include a total field. -/
theorem burnchain_reward_list_has_no_total :
    handleBurnchainRewards demoStore { limit := none, offset := none } =
      RouteResponse.json 200
        (burnchainListResponseJson 20 0
          ((getBurnchainRewards demoStore 0 20 none).map burnchainRewardToJson))
    ∧ (burnchainListResponseJson 20 0
        ((getBurnchainRewards demoStore 0 20 none).map burnchainRewardToJson)).getField
        "total" = none :=
  ⟨rfl, burnchainListResponseJson_getField_total 20 0 _⟩

theorem fetchTxResults_isSome (db : DataStore) (ts : List DbTx)
    (h : ∀ t ∈ ts, t ∈ db.txs ∧ t.canonical = true) :
    ∃ rs, fetchTxResults db ts = some rs := by
  induction ts with
  | nil => exact ⟨[], rfl⟩
  | cons t rest ih =>
    obtain ⟨ht, hc⟩ := h t (List.mem_cons_self t rest)
    have hfs : (db.txs.find? (fun x => x.tx_id == t.tx_id && x.canonical)).isSome := by
      rw [List.find?_isSome]
      exact ⟨t, ht, by simp [hc]⟩
    obtain ⟨u, hu⟩ := Option.isSome_iff_exists.mp hfs
    have hget : getTxFromDataStore db t.tx_id none none =
        some { tx := u,
               events := (db.stxEvents.filter
                 (fun e => e.tx_id == t.tx_id && e.canonical)).drop 0 } := by
      unfold getTxFromDataStore
      rw [hu]
      rfl
    obtain ⟨rs, hrs⟩ := ih (fun x hx => h x (List.mem_cons_of_mem t hx))
    refine ⟨txQueryResultToJson
      { tx := u,
        events := (db.stxEvents.filter
          (fun e => e.tx_id == t.tx_id && e.canonical)).drop 0 } :: rs, ?_⟩
    unfold fetchTxResults
    rw [hget, hrs]

/-- Claim C2 (amended): the transaction, mempool and dropped-transaction
list operations return an object of shape {limit, offset, total, results}
whose total is the count of all rows matching the filter predicate
independent of the requested page window; the burnchain reward list
responses carry {limit, offset, results} and include no total field. -/
theorem list_operation_totals (H : AddressHelpers) (db : DataStore) :
    (∀ (q : MempoolQuery) (l : Nat) (s r a : Option String),
      parseMempoolTxQueryLimit (q.limit.getD 96) = Except.ok l →
      parseAddrParam H "sender_address" q.sender_address = Except.ok s →
      parseAddrParam H "recipient_address" q.recipient_address = Except.ok r →
      parseAddrParam H "address" q.address = Except.ok a →
      (a.isSome && (r.isSome || s.isSome)) = false →
      ∃ body, handleMempoolTxList H db q = RouteResponse.json 200 body
        ∧ body.getField "total" = some (Json.num
            ((db.mempoolTxs.filter (fun tx => !tx.pruned && !tx.dropped &&
              mempoolTxMatches s r a tx)).length)))
    ∧ (∀ (q : PagingQuery) (l : Nat),
      parseTxQueryLimit (q.limit.getD 96) = Except.ok l →
      ∃ body, handleDroppedTxList db q = RouteResponse.json 200 body
        ∧ body.getField "total" = some (Json.num
            ((db.mempoolTxs.filter (fun m => m.dropped)).length)))
    ∧ (∀ (q : TxListQuery) (l : Nat) (tf : List String),
      parseTxQueryLimit (q.limit.getD 96) = Except.ok l →
      (match q.type with
       | none => Except.ok []
       | some vs => parseTxTypeStrings vs) = Except.ok tf →
      ∃ body, handleTxList db q = RouteResponse.json 200 body
        ∧ body.getField "total" = some (Json.num
            ((db.txs.filter (txListMatches tf)).length)))
    ∧ (∀ (q : PagingQuery) (l : Nat),
      parseBlockQueryLimit (q.limit.getD 20) = Except.ok l →
      ∃ body, handleBurnchainRewards db q = RouteResponse.json 200 body
        ∧ body.getField "total" = none) := by
  refine ⟨?_, ?_, ?_, ?_⟩
  · intro q l s r a hl hs hr ha hx
    refine ⟨_, handleMempoolTxList_ok H db q l s r a hl hs hr ha hx, ?_⟩
    rw [listResponseJson_getField_total]
    rfl
  · intro q l hl
    refine ⟨listResponseJson l (q.offset.getD 0)
      (getDroppedTxs db (q.offset.getD 0) l).total
      ((getDroppedTxs db (q.offset.getD 0) l).results.map parseDbMempoolTx), ?_, ?_⟩
    · unfold handleDroppedTxList
      rw [hl]
      rfl
    · rw [listResponseJson_getField_total]
      rfl
  · intro q l tf hl htf
    have hrows : ∀ t ∈ (getTxList db (q.offset.getD 0) l tf).results,
        t ∈ db.txs ∧ t.canonical = true := by
      intro t ht
      unfold getTxList at ht
      have h1 : t ∈ db.txs.filter (txListMatches tf) :=
        List.mem_of_mem_drop (List.mem_of_mem_take ht)
      obtain ⟨h2, h3⟩ := List.mem_filter.mp h1
      unfold txListMatches at h3
      exact ⟨h2, (Bool.and_eq_true _ _ |>.mp h3).1⟩
    obtain ⟨rs, hrs⟩ := fetchTxResults_isSome db _ hrows
    refine ⟨listResponseJson l (q.offset.getD 0)
      (getTxList db (q.offset.getD 0) l tf).total rs, ?_, ?_⟩
    · unfold handleTxList
      rw [hl, htf]
      simp only [parsePagingQueryInput]
      rw [hrs]
    · rw [listResponseJson_getField_total]
      rfl
  · intro q l hl
    refine ⟨burnchainListResponseJson l (q.offset.getD 0)
      ((getBurnchainRewards db (q.offset.getD 0) l none).map burnchainRewardToJson), ?_, ?_⟩
    · unfold handleBurnchainRewards
      rw [hl]
      rfl
    · rw [burnchainListResponseJson_getField_total]

/-- Witness for C2 (amended): at the demo store, the dropped-transaction
list response carries the full filtered count as total, and the burnchain
reward list response has no total field. -/
theorem list_operation_totals_witness :
    (∃ body, handleDroppedTxList demoStore { limit := none, offset := none } =
        RouteResponse.json 200 body
      ∧ body.getField "total" = some (Json.num
          ((demoStore.mempoolTxs.filter (fun m => m.dropped)).length)))
    ∧ (∃ body, handleBurnchainRewards demoStore { limit := none, offset := none } =
        RouteResponse.json 200 body
      ∧ body.getField "total" = none) :=
  ⟨(list_operation_totals demoHelpers demoStore).2.1
      { limit := none, offset := none } 96 rfl,
   (list_operation_totals demoHelpers demoStore).2.2.2
      { limit := none, offset := none } 20 rfl⟩
